import Mathlib

/- Shallow embedding of src/Main.py (NeuroGuard Bio-API).

   Modelling conventions:
   - Python floats are modelled as exact rationals (only order comparisons with
     decimal constants occur in the program, on which IEEE doubles and exact
     rationals agree for the decimal values involved).
   - datetime instants are modelled as abstract natural numbers.
   - Randomness is modelled by passing the drawn value explicitly, constrained
     by the documented postcondition of the random primitive it came from.
   - The serial device is modelled as delivering, per read attempt, either a
     decoded text line or a SerialException.  The device line protocol is
     comma-separated ASCII text (spec section 6), so byte-level UTF-8 decoding
     is modelled as already done.
   - Exceptions that the program catches are modelled with Option / Except. -/

/-- The enumerated signal kinds of the pydantic model BioSignalData
(Main.py line 24: Literal of EEG, ECG, GSR). -/
def SIGNAL_TYPES : List String := ["EEG", "ECG", "GSR"]

/-- Schema for the raw biosignal data input (Main.py lines 22-27). -/
structure BioSignalData where
  signal_type : String
  reading_value : ℚ
  timestamp : ℕ
  user_id : String
deriving DecidableEq

/-- Pydantic construction of BioSignalData (Main.py lines 22-27): the
signal_type field is declared Literal of EEG, ECG, GSR, so constructing the
model with any other token raises ValidationError (modelled as none).
Pydantic ValidationError is a subclass of ValueError, so call sites that
catch ValueError catch this failure. -/
def mkBioSignalData (st : String) (v : ℚ) (ts : ℕ) (uid : String) : Option BioSignalData :=
  if st ∈ SIGNAL_TYPES then some ⟨st, v, ts, uid⟩ else none

/-- Schema for the AI analysis output (Main.py lines 29-33). -/
structure AnalysisResult where
  action_suggestion : String
  risk_level : String
  consent_ledger_update : String
deriving DecidableEq

/-- Schema for the mock ledger status (Main.py lines 35-40). -/
structure LedgerStatus where
  contract_name : String
  status : String
  last_block_number : ℤ
  total_consents_recorded : ℤ
deriving DecidableEq

/-- The f-string of Main.py line 124, as plain concatenation. -/
def consent_msg (uid risk : String) : String :=
  "Consent ledger update mocked: New reading for " ++ uid ++ " logged with Risk: " ++ risk ++ "."

/-- mock_ai_analysis (Main.py lines 109-130): first-match rule table over the
reading, then the consent-ledger message string. -/
def mock_ai_analysis (data : BioSignalData) : AnalysisResult :=
  let value := data.reading_value
  let ra : String × String :=
    if data.signal_type = "EEG" ∧ 120 < value then
      ("High", "Emergency Alert & System Shutdown")
    else if data.signal_type = "ECG" ∧ (value < 65 ∨ 95 < value) then
      ("Moderate", "Increase monitoring frequency and log event.")
    else
      ("Low", "Continue passive monitoring.")
  ⟨ra.2, ra.1, consent_msg data.user_id ra.1⟩

/-- Python runtime errors relevant to this program. -/
inductive PyError where
  | typeError (msg : String)
deriving DecidableEq

/-- Python values as far as the await expression of Main.py line 188 is
concerned: time.sleep returns None, which is not awaitable. -/
inductive PyAwaitable where
  | pyNone
  | coroutine
deriving DecidableEq

/-- time.sleep blocks for the given number of seconds and returns None. -/
def time_sleep (_seconds : ℚ) : PyAwaitable :=
  PyAwaitable.pyNone

/-- Python await semantics: awaiting a non-awaitable value raises TypeError. -/
def pyAwait : PyAwaitable → Except PyError Unit
  | PyAwaitable.pyNone =>
      Except.error (PyError.typeError ("object NoneType cannot be used in await expression"))
  | PyAwaitable.coroutine => Except.ok ()

/-- analyze_and_update (Main.py lines 179-190): runs mock_ai_analysis, then
executes the statement await time.sleep(0.05).  time.sleep(0.05) blocks for
0.05 s and evaluates to None; awaiting None raises TypeError, which escapes
the handler (nothing is caught here), so the computed analysis is never
returned. -/
def analyze_and_update (data : BioSignalData) : Except PyError AnalysisResult :=
  let analysis := mock_ai_analysis data
  match pyAwait (time_sleep (5 / 100)) with
  | Except.ok _ => Except.ok analysis
  | Except.error e => Except.error e

/-- A JSON field of a request body, as far as pydantic validation of this
program's models is concerned. -/
inductive JsonField where
  | absent
  | str (s : String)
  | num (q : ℚ)
deriving DecidableEq

/-- A raw POST /process_data request body before validation. -/
structure RawBody where
  signal_type : Option String
  reading_value : JsonField
  timestamp : Option ℕ
  user_id : Option String
deriving DecidableEq

/-- Python random.randint(a, b): an integer drawn uniformly from [a, b], both
endpoints included; modelled as a function of an arbitrary draw r. -/
def pyRandint (a b : ℤ) (r : ℕ) : ℤ :=
  a + (r : ℤ) % (b - a + 1)

/-- get_ledger_status (Main.py lines 192-202). -/
def get_ledger_status (r1 r2 : ℕ) : LedgerStatus :=
  ⟨"NeuroGuardConsentLedger", "Operational",
   pyRandint 1000000 1500000 r1, pyRandint 5000 10000 r2⟩

/-- Python str.strip(): remove leading and trailing whitespace. -/
def pyStrip (s : String) : String :=
  String.mk (((s.toList.dropWhile Char.isWhitespace).reverse.dropWhile Char.isWhitespace).reverse)

/-- Helper for pySplit: splits a character list at every occurrence of the
separator, keeping empty fields, like Python str.split with an explicit
separator. -/
def splitChar (sep : Char) : List Char → List Char → List (List Char)
  | [], acc => [acc.reverse]
  | c :: rest, acc =>
      if c = sep then acc.reverse :: splitChar sep rest []
      else splitChar sep rest (c :: acc)

/-- Python str.split(sep) for a one-character separator. -/
def pySplit (s : String) (sep : Char) : List String :=
  (splitChar sep s.toList []).map String.mk

/-- Numeric value of a list of decimal digit characters. -/
def digitsVal (l : List Char) : ℕ :=
  l.foldl (fun a c => 10 * a + (c.toNat - 48)) 0

/-- All characters are decimal digits. -/
def allDigits (l : List Char) : Bool :=
  l.all Char.isDigit

/-- Optional leading sign of a numeric literal; returns whether it was a
minus sign, and the remaining characters. -/
def parseSign : List Char → Bool × List Char
  | '-' :: rest => (true, rest)
  | '+' :: rest => (false, rest)
  | cs => (false, cs)

/-- The syntactic content of a decimal floating-point literal: sign, the
digits of the integer and fractional parts run together, the number of
fractional digits, and the optional signed exponent. -/
structure FloatLit where
  neg : Bool
  mant : ℕ
  fracLen : ℕ
  eneg : Bool
  expo : ℕ
deriving DecidableEq

/-- The exact rational value denoted by a decimal floating-point literal. -/
def floatLitVal (f : FloatLit) : ℚ :=
  let base : ℚ := (f.mant : ℚ) / 10 ^ f.fracLen
  let scaled : ℚ := if f.eneg then base / 10 ^ f.expo else base * 10 ^ f.expo
  if f.neg then -scaled else scaled

/-- Mantissa of a decimal literal: digits, with at most one decimal point and
at least one digit overall ("1.", ".5" and "7" are accepted; "", "." and
non-digits are rejected). -/
def parseMant? (m : List Char) : Option (ℕ × ℕ) :=
  match splitChar '.' m [] with
  | [ipart] =>
      if ipart ≠ [] ∧ allDigits ipart then some (digitsVal ipart, 0) else none
  | [ipart, fpart] =>
      if (ipart ≠ [] ∨ fpart ≠ []) ∧ allDigits ipart ∧ allDigits fpart then
        some (digitsVal (ipart ++ fpart), fpart.length)
      else none
  | _ => none

/-- Syntactic phase of the Python builtin float(): strips surrounding
whitespace, lowercases (so E works as exponent marker), and accepts
sign digits [. digits] [e sign digits].  The special spellings inf and
nan and digit-group underscores denote no rational and are outside this
model's domain (no claim involves them). -/
def pyFloatLit? (s : String) : Option FloatLit :=
  let cs := ((pyStrip s).toList).map Char.toLower
  let sr := parseSign cs
  match splitChar 'e' sr.2 [] with
  | [m] =>
      match parseMant? m with
      | some mf => some ⟨sr.1, mf.1, mf.2, false, 0⟩
      | none => none
  | [m, ex] =>
      match parseMant? m with
      | some mf =>
          let esr := parseSign ex
          if esr.2 ≠ [] ∧ allDigits esr.2 then
            some ⟨sr.1, mf.1, mf.2, esr.1, digitsVal esr.2⟩
          else none
      | none => none
  | _ => none

/-- The Python builtin float() on text, as an exact rational (None models the
ValueError Python raises on a malformed literal). -/
def pyFloat? (s : String) : Option ℚ :=
  Option.map floatLitVal (pyFloatLit? s)

/-- FastAPI boundary validation of a request body against BioSignalData
(Main.py lines 22-27): missing fields take the declared defaults (the
timestamp default is the module-load instant, passed here as ml), the
signal_type is checked against the Literal type, and the reading value
must be numeric (a numeric string is coerced, anything else fails). -/
def validate_body (ml : ℕ) (b : RawBody) : Option BioSignalData :=
  let st := b.signal_type.getD ("EEG")
  let ts := b.timestamp.getD ml
  let uid := b.user_id.getD ("NG-User-1234")
  match b.reading_value with
  | JsonField.num q => mkBioSignalData st q ts uid
  | JsonField.str s =>
      match pyFloat? s with
      | some q => mkBioSignalData st q ts uid
      | none => none
  | JsonField.absent => none

/-- HTTP statuses the POST /process_data endpoint can produce. -/
inductive HttpStatus where
  | ok200
  | unprocessable422
  | serverError500
deriving DecidableEq

/-- The full POST /process_data operation: FastAPI validates the body against
BioSignalData (422 on failure, before the handler runs), then runs
analyze_and_update; an uncaught exception in the handler becomes a 500
server error. -/
def process_data_endpoint (ml : ℕ) (b : RawBody) : HttpStatus × Option AnalysisResult :=
  match validate_body ml b with
  | none => (HttpStatus.unprocessable422, none)
  | some data =>
      match analyze_and_update data with
      | Except.ok res => (HttpStatus.ok200, some res)
      | Except.error _ => (HttpStatus.serverError500, none)

/-- Python random.uniform(a, b) = a + (b - a) * random(), as a function of the
draw r of random(), which lies in [0, 1]. -/
def pyUniform (a b r : ℚ) : ℚ :=
  a + (b - a) * r

/-- Round-half-to-even to an integer, the rounding mode of the Python builtin
round. -/
def bankersRound (x : ℚ) : ℤ :=
  if x - ⌊x⌋ < 1 / 2 then ⌊x⌋
  else if 1 / 2 < x - ⌊x⌋ then ⌊x⌋ + 1
  else if ⌊x⌋ % 2 = 0 then ⌊x⌋ else ⌊x⌋ + 1

/-- Python round(x, 2): round to two decimal places, half to even. -/
def pyRound2 (q : ℚ) : ℚ :=
  (bankersRound (q * 100) : ℚ) / 100

/-- generate_mock_data (Main.py lines 92-107): signal_type is the outcome of
random.choice over SIGNAL_TYPES (passed in, constrained by the choice
postcondition at use sites), r is the outcome of random(); the pydantic
construction at line 102 always succeeds because the chosen signal_type is
one of the enumerated kinds. -/
def generate_mock_data (signal_type : String) (r : ℚ) (now : ℕ) : BioSignalData :=
  let value : ℚ :=
    if signal_type = "EEG" then pyUniform 50 150 r
    else if signal_type = "ECG" then pyUniform 60 100 r
    else pyUniform (1 / 10) 5 r
  ⟨signal_type, pyRound2 value, now, "NG-Simulated-User-789"⟩

/-- The process-wide acquisition state (Main.py lines 17-18):
serial_connection models whether the Optional handle is present,
is_serial_active models the IS_SERIAL_ACTIVE flag. -/
structure SerialState where
  serial_connection : Bool
  is_serial_active : Bool
deriving DecidableEq

/-- One read attempt's outcome at the device: a decoded text line, or a
SerialException raised by the transport. -/
inductive DeviceRead where
  | line (raw : String)
  | raiseException
deriving DecidableEq

/-- read_serial_data (Main.py lines 78-90): if the connection is present and
active, read a line, strip it, and return it when nonempty; a
SerialException clears the active flag and yields no data; otherwise no
data. -/
def read_serial_data (st : SerialState) (dev : DeviceRead) : Option String × SerialState :=
  if st.serial_connection && st.is_serial_active then
    match dev with
    | DeviceRead.line raw =>
        let line := pyStrip raw
        if line ≠ "" then (some line, st) else (none, st)
    | DeviceRead.raiseException => (none, ⟨st.serial_connection, false⟩)
  else (none, st)

/-- A sequence of read_serial_data calls, threading the process-wide state and
collecting each call's result. -/
def readTrace : SerialState → List DeviceRead → List (Option String) × SerialState
  | st, [] => ([], st)
  | st, dev :: rest =>
      let r1 := read_serial_data st dev
      let r2 := readTrace r1.2 rest
      (r1.1 :: r2.1, r2.2)

/-- The parse step of get_live_biosignals (Main.py lines 156-167): split on
commas, require at least two fields, field 1 stripped is the signal type,
field 2 stripped must parse as a float, field 3 stripped (when present) is
the user id, else the placeholder; then pydantic construction of
BioSignalData, with the timestamp field left to its declared default ml
(the module-load instant).  Any ValueError (float failure or pydantic
validation) or other exception is caught by the caller, modelled as none. -/
def parse_serial_line (raw_data : String) (ml : ℕ) : Option BioSignalData :=
  let parts := pySplit raw_data ','
  if 2 ≤ parts.length then
    let signal_type := pyStrip (parts.getD 0 "")
    match pyFloat? (pyStrip (parts.getD 1 "")) with
    | some reading_value =>
        let user_id := if 2 < parts.length then pyStrip (parts.getD 2 "") else "NG-Serial-Device"
        mkBioSignalData signal_type reading_value ml user_id
    | none => none
  else none

/-- get_live_biosignals (Main.py lines 146-176): read from the serial device;
if a line arrived and parses, return the parsed reading; on parse failure or
no data, return freshly generated mock data.  sc and r model the random
draws the mock generator would use, now the current instant, ml the
module-load instant used by the pydantic timestamp default. -/
def get_live_biosignals (st : SerialState) (dev : DeviceRead) (sc : String) (r : ℚ)
    (now ml : ℕ) : BioSignalData × SerialState :=
  let rd := read_serial_data st dev
  (match rd.1 with
   | some raw =>
       match parse_serial_line raw ml with
       | some d => d
       | none => generate_mock_data sc r now
   | none => generate_mock_data sc r now,
   rd.2)

/- ------------------------------------------------------------------ -/
/- Helper lemmas                                                       -/
/- ------------------------------------------------------------------ -/

lemma pyRandint_mem (a b : ℤ) (r : ℕ) (hab : a ≤ b) :
    a ≤ pyRandint a b r ∧ pyRandint a b r ≤ b := by
  unfold pyRandint
  have hpos : (0 : ℤ) < b - a + 1 := by omega
  have h1 := Int.emod_nonneg (r : ℤ) (by omega : b - a + 1 ≠ 0)
  have h2 := Int.emod_lt_of_pos (r : ℤ) hpos
  omega

lemma le_bankersRound (x : ℚ) (A : ℤ) (h : (A : ℚ) ≤ x) : A ≤ bankersRound x := by
  have hfl : A ≤ ⌊x⌋ := Int.le_floor.mpr h
  unfold bankersRound
  split_ifs <;> omega

lemma bankersRound_le (x : ℚ) (B : ℤ) (h : x ≤ (B : ℚ)) : bankersRound x ≤ B := by
  have hfl : ⌊x⌋ ≤ B := by
    have h2 := Int.floor_le_floor h
    simpa using h2
  unfold bankersRound
  split_ifs with h1 h2 h3
  · exact hfl
  · have h1' := not_lt.mp h1
    have hx : (⌊x⌋ : ℚ) < x := by linarith
    have : ⌊x⌋ < B := by exact_mod_cast hx.trans_le h
    omega
  · exact hfl
  · have h1' := not_lt.mp h1
    have hx : (⌊x⌋ : ℚ) < x := by linarith
    have : ⌊x⌋ < B := by exact_mod_cast hx.trans_le h
    omega

lemma pyRound2_mem_of_int (a b q : ℚ) (A B : ℤ) (ha : (A : ℚ) = a * 100)
    (hb : (B : ℚ) = b * 100) (h1 : a ≤ q) (h2 : q ≤ b) :
    a ≤ pyRound2 q ∧ pyRound2 q ≤ b := by
  have l1 := le_bankersRound (q * 100) A (by rw [ha]; linarith)
  have l2 := bankersRound_le (q * 100) B (by rw [hb]; linarith)
  have c1 : (A : ℚ) ≤ (bankersRound (q * 100) : ℚ) := by exact_mod_cast l1
  have c2 : ((bankersRound (q * 100)) : ℚ) ≤ (B : ℚ) := by exact_mod_cast l2
  rw [ha] at c1
  rw [hb] at c2
  unfold pyRound2
  constructor <;> linarith

lemma pyUniform_mem (a b r : ℚ) (hab : a ≤ b) (h0 : 0 ≤ r) (h1 : r ≤ 1) :
    a ≤ pyUniform a b r ∧ pyUniform a b r ≤ b := by
  unfold pyUniform
  constructor <;> nlinarith

lemma parse_serial_line_props (raw : String) (ml : ℕ) (d : BioSignalData)
    (h : parse_serial_line raw ml = some d) :
    d.signal_type = pyStrip ((pySplit raw ',').getD 0 "") ∧
    d.signal_type ∈ SIGNAL_TYPES ∧ d.timestamp = ml := by
  simp only [parse_serial_line, mkBioSignalData] at h
  split at h
  · split at h
    · split at h
      next hmem =>
        injection h with h2
        subst h2
        exact ⟨rfl, hmem, rfl⟩
      next hmem => simp at h
    · simp at h
  · simp at h

lemma parse_serial_line_none_of_bad_first (raw : String) (ml : ℕ)
    (h : pyStrip ((pySplit raw ',').getD 0 "") ∉ SIGNAL_TYPES) :
    parse_serial_line raw ml = none := by
  simp only [parse_serial_line, mkBioSignalData]
  split
  · split <;> simp [h]
  · rfl

lemma get_live_serial_parse_ok (st : SerialState) (dev : DeviceRead) (sc : String) (r : ℚ)
    (now ml : ℕ) (raw : String) (d : BioSignalData)
    (hr : (read_serial_data st dev).1 = some raw)
    (hp : parse_serial_line raw ml = some d) :
    (get_live_biosignals st dev sc r now ml).1 = d := by
  simp only [get_live_biosignals]
  simp only [hr, hp]

lemma get_live_fallback_parse_fail (st : SerialState) (dev : DeviceRead) (sc : String)
    (r : ℚ) (now ml : ℕ) (raw : String)
    (hr : (read_serial_data st dev).1 = some raw)
    (hp : parse_serial_line raw ml = none) :
    (get_live_biosignals st dev sc r now ml).1 = generate_mock_data sc r now := by
  simp only [get_live_biosignals]
  simp only [hr, hp]

lemma get_live_fallback_no_data (st : SerialState) (dev : DeviceRead) (sc : String)
    (r : ℚ) (now ml : ℕ)
    (hr : (read_serial_data st dev).1 = none) :
    (get_live_biosignals st dev sc r now ml).1 = generate_mock_data sc r now := by
  simp only [get_live_biosignals]
  simp only [hr]

lemma read_serial_data_inactive (st : SerialState) (dev : DeviceRead)
    (h : st.is_serial_active = false) : read_serial_data st dev = (none, st) := by
  unfold read_serial_data
  rw [h]
  simp

lemma readTrace_inactive (st : SerialState) (h : st.is_serial_active = false) :
    ∀ devs : List DeviceRead,
      readTrace st devs = (devs.map (fun _ => (none : Option String)), st)
  | [] => by simp [readTrace]
  | dev :: rest => by
    simp [readTrace, read_serial_data_inactive st dev h, readTrace_inactive st h rest]

/- ------------------------------------------------------------------ -/
/- Claim theorems                                                      -/
/- ------------------------------------------------------------------ -/

/-- Claim C1 (code bug): the POST /process_data handler computes the analysis
and then executes await time.sleep(0.05); time.sleep returns None and
awaiting None raises TypeError, so for every valid Reading the operation
raises instead of returning the AnalysisResult — the claim's "returns the
resulting AnalysisResult to the caller" never happens. -/
theorem claim_c1_analyze_never_returns (data : BioSignalData) :
    analyze_and_update data =
      Except.error (PyError.typeError ("object NoneType cannot be used in await expression")) ∧
    ∀ res : AnalysisResult, analyze_and_update data ≠ Except.ok res := by
  refine ⟨rfl, fun res h => ?_⟩
  exact Except.noConfusion h

/-- Claim C2 counterexample: the line with first field XYZ (outside the
enumerated set) and a well-formed numeric second field does not yield a
parsed Reading carrying XYZ — pydantic construction of the Reading fails,
so parsing yields nothing at all. -/
theorem claim_c2_counterexample : parse_serial_line ("XYZ,1.0") 0 = none := by
  decide

/-- Claim C2 as amended: the parsing code itself takes field 1 verbatim (any
successfully parsed Reading carries exactly the stripped first field), but
Reading construction validates against the enumerated set, so a first field
outside that set produces no Reading at all and the endpoint falls back to
mock data. -/
theorem claim_c2_amended_ctor_validates (raw : String) (ml : ℕ) :
    (∀ d : BioSignalData, parse_serial_line raw ml = some d →
      d.signal_type = pyStrip ((pySplit raw ',').getD 0 "") ∧ d.signal_type ∈ SIGNAL_TYPES) ∧
    (pyStrip ((pySplit raw ',').getD 0 "") ∉ SIGNAL_TYPES → parse_serial_line raw ml = none) := by
  constructor
  · intro d hd
    have h := parse_serial_line_props raw ml d hd
    exact ⟨h.1, h.2.1⟩
  · intro hmem
    exact parse_serial_line_none_of_bad_first raw ml hmem

/-- Witness for claim C2's amended theorem at a concrete input. -/
theorem claim_c2_witness : parse_serial_line ("FOO,2.5") 0 = none :=
  (claim_c2_amended_ctor_validates ("FOO,2.5") 0).2 (by decide)

/-- Claim C3: the live-reading operation is total over every modelled
acquisition outcome — it returns the parsed Reading exactly when the read
produced a line that parses, the freshly generated mock Reading otherwise,
and in all cases the returned Reading is structurally valid (its
signal_type is one of the enumerated kinds). -/
theorem claim_c3_live_total_valid (st : SerialState) (dev : DeviceRead) (sc : String)
    (r : ℚ) (now ml : ℕ) (hsc : sc ∈ SIGNAL_TYPES) :
    ((get_live_biosignals st dev sc r now ml).1).signal_type ∈ SIGNAL_TYPES ∧
    (∀ raw d, (read_serial_data st dev).1 = some raw → parse_serial_line raw ml = some d →
      (get_live_biosignals st dev sc r now ml).1 = d) ∧
    (∀ raw, (read_serial_data st dev).1 = some raw → parse_serial_line raw ml = none →
      (get_live_biosignals st dev sc r now ml).1 = generate_mock_data sc r now) ∧
    ((read_serial_data st dev).1 = none →
      (get_live_biosignals st dev sc r now ml).1 = generate_mock_data sc r now) := by
  refine ⟨?_, ?_, ?_, ?_⟩
  · rcases ho : (read_serial_data st dev).1 with _ | raw
    · rw [get_live_fallback_no_data st dev sc r now ml ho]
      exact hsc
    · rcases hp : parse_serial_line raw ml with _ | d
      · rw [get_live_fallback_parse_fail st dev sc r now ml raw ho hp]
        exact hsc
      · rw [get_live_serial_parse_ok st dev sc r now ml raw d ho hp]
        exact (parse_serial_line_props raw ml d hp).2.1
  · intro raw d h1 h2
    exact get_live_serial_parse_ok st dev sc r now ml raw d h1 h2
  · intro raw h1 h2
    exact get_live_fallback_parse_fail st dev sc r now ml raw h1 h2
  · intro h1
    exact get_live_fallback_no_data st dev sc r now ml h1

/-- Witness for claim C3 at a concrete input (no device handle, mock path). -/
theorem claim_c3_witness :
    ((get_live_biosignals ⟨false, false⟩ (DeviceRead.line ("EEG,75.5")) ("ECG") (1 / 2) 9 0).1).signal_type ∈ SIGNAL_TYPES :=
  (claim_c3_live_total_valid ⟨false, false⟩ (DeviceRead.line ("EEG,75.5")) ("ECG") (1 / 2) 9 0
    (by decide)).1

/-- Claim C4: the Analysis Stub implements the first-match rule table — EEG
above 120 gives High with the emergency action, ECG below 65 or above 95
gives Moderate with the monitoring action, everything else gives Low — and
the consent-ledger string embeds the user id and the computed risk level. -/
theorem claim_c4_rule_table (d : BioSignalData) :
    ((d.signal_type = "EEG" ∧ 120 < d.reading_value) →
      mock_ai_analysis d =
        ⟨"Emergency Alert & System Shutdown", "High", consent_msg d.user_id ("High")⟩) ∧
    ((d.signal_type = "ECG" ∧ (d.reading_value < 65 ∨ 95 < d.reading_value)) →
      mock_ai_analysis d =
        ⟨"Increase monitoring frequency and log event.", "Moderate",
         consent_msg d.user_id ("Moderate")⟩) ∧
    ((¬(d.signal_type = "EEG" ∧ 120 < d.reading_value) ∧
      ¬(d.signal_type = "ECG" ∧ (d.reading_value < 65 ∨ 95 < d.reading_value))) →
      mock_ai_analysis d =
        ⟨"Continue passive monitoring.", "Low", consent_msg d.user_id ("Low")⟩) := by
  refine ⟨fun h => ?_, fun h => ?_, fun h => ?_⟩
  · simp only [mock_ai_analysis]
    rw [if_pos h]
  · have h1 : ¬(d.signal_type = "EEG" ∧ 120 < d.reading_value) := by
      rintro ⟨he, -⟩
      rw [h.1] at he
      exact absurd he (by decide)
    simp only [mock_ai_analysis]
    rw [if_neg h1, if_pos h]
  · simp only [mock_ai_analysis]
    rw [if_neg h.1, if_neg h.2]

/-- Witness for claim C4 at the spec's example reading EEG 130. -/
theorem claim_c4_witness :
    mock_ai_analysis ⟨"EEG", 130, 0, "NG-User-1234"⟩ =
      ⟨"Emergency Alert & System Shutdown", "High", consent_msg ("NG-User-1234") ("High")⟩ :=
  (claim_c4_rule_table ⟨"EEG", 130, 0, "NG-User-1234"⟩).1 ⟨rfl, by norm_num⟩

/-- Claim C5: a SerialException during a read from an active connection makes
the current call return no data and clears the active flag, and from the
resulting state every later read_serial_data call returns no data and leaves
the state unchanged, whatever the device would have delivered — the
transition is one-way for the process lifetime. -/
theorem claim_c5_one_way_inactive (st : SerialState) (devs : List DeviceRead)
    (hconn : st.serial_connection = true) (hact : st.is_serial_active = true) :
    read_serial_data st DeviceRead.raiseException = (none, ⟨st.serial_connection, false⟩) ∧
    readTrace ⟨st.serial_connection, false⟩ devs =
      (devs.map (fun _ => (none : Option String)), ⟨st.serial_connection, false⟩) := by
  constructor
  · unfold read_serial_data
    rw [hconn, hact]
    rfl
  · exact readTrace_inactive ⟨st.serial_connection, false⟩ rfl devs

/-- Witness for claim C5: a concrete failure followed by three further read
attempts, all returning no data without touching the device outcomes. -/
theorem claim_c5_witness :
    read_serial_data ⟨true, true⟩ DeviceRead.raiseException = (none, ⟨true, false⟩) ∧
    readTrace ⟨true, false⟩
        [DeviceRead.line ("ECG,72"), DeviceRead.raiseException, DeviceRead.line ("")] =
      ([none, none, none], ⟨true, false⟩) :=
  claim_c5_one_way_inactive ⟨true, true⟩
    [DeviceRead.line ("ECG,72"), DeviceRead.raiseException, DeviceRead.line ("")] rfl rfl

/-- Claim C6: parser round trip — the line EEG,75.5,user42 parses to the
Reading with signal_type EEG, value 75.5 and user_id user42; a one-field
line fails; a line with a non-numeric second field fails; and a two-field
line gets the fixed placeholder user id. -/
theorem claim_c6_parser_round_trip (ml : ℕ) :
    parse_serial_line ("EEG,75.5,user42") ml = some ⟨"EEG", 151 / 2, ml, "user42"⟩ ∧
    parse_serial_line ("EEG") ml = none ∧
    parse_serial_line ("EEG,abc") ml = none ∧
    parse_serial_line ("EEG,75.5") ml = some ⟨"EEG", 151 / 2, ml, "NG-Serial-Device"⟩ := by
  have hv : floatLitVal ⟨false, 755, 1, false, 0⟩ = 151 / 2 := by norm_num [floatLitVal]
  have h1 : parse_serial_line ("EEG,75.5,user42") ml =
      some ⟨"EEG", floatLitVal ⟨false, 755, 1, false, 0⟩, ml, "user42"⟩ := rfl
  have h4 : parse_serial_line ("EEG,75.5") ml =
      some ⟨"EEG", floatLitVal ⟨false, 755, 1, false, 0⟩, ml, "NG-Serial-Device"⟩ := rfl
  refine ⟨?_, rfl, rfl, ?_⟩
  · rw [h1, hv]
  · rw [h4, hv]

/-- Claim C7 (code bug): boundary validation does reject a signal_type outside
the enumerated set with 422 before the stub runs, but it is not the only
failure an API consumer sees — a perfectly valid body produces a 500 server
error, because the handler's await time.sleep(0.05) raises TypeError. -/
theorem claim_c7_visible_failures :
    process_data_endpoint 0 ⟨some ("XYZ"), JsonField.num 1, none, none⟩ =
      (HttpStatus.unprocessable422, none) ∧
    process_data_endpoint 0 ⟨some ("EEG"), JsonField.num 1, none, none⟩ =
      (HttpStatus.serverError500, none) :=
  ⟨rfl, rfl⟩

/-- Claim C8: every mock Reading has a signal_type among the enumerated
kinds, the fixed simulated user id, and a two-decimal-rounded value inside
the selected type's fixed range. -/
theorem claim_c8_mock_ranges (st : String) (r : ℚ) (now : ℕ)
    (hst : st ∈ SIGNAL_TYPES) (h0 : 0 ≤ r) (h1 : r ≤ 1) :
    (generate_mock_data st r now).signal_type ∈ SIGNAL_TYPES ∧
    (generate_mock_data st r now).user_id = "NG-Simulated-User-789" ∧
    (st = "EEG" → 50 ≤ (generate_mock_data st r now).reading_value ∧
      (generate_mock_data st r now).reading_value ≤ 150) ∧
    (st = "ECG" → 60 ≤ (generate_mock_data st r now).reading_value ∧
      (generate_mock_data st r now).reading_value ≤ 100) ∧
    (st = "GSR" → 1 / 10 ≤ (generate_mock_data st r now).reading_value ∧
      (generate_mock_data st r now).reading_value ≤ 5) := by
  refine ⟨hst, rfl, fun he => ?_, fun he => ?_, fun he => ?_⟩
  · subst he
    have hu := pyUniform_mem 50 150 r (by norm_num) h0 h1
    exact pyRound2_mem_of_int 50 150 (pyUniform 50 150 r) 5000 15000
      (by norm_num) (by norm_num) hu.1 hu.2
  · subst he
    have hu := pyUniform_mem 60 100 r (by norm_num) h0 h1
    exact pyRound2_mem_of_int 60 100 (pyUniform 60 100 r) 6000 10000
      (by norm_num) (by norm_num) hu.1 hu.2
  · subst he
    have hu := pyUniform_mem (1 / 10) 5 r (by norm_num) h0 h1
    exact pyRound2_mem_of_int (1 / 10) 5 (pyUniform (1 / 10) 5 r) 10 500
      (by norm_num) (by norm_num) hu.1 hu.2

/-- Witness for claim C8 at a concrete GSR draw. -/
theorem claim_c8_witness :
    1 / 10 ≤ (generate_mock_data ("GSR") (1 / 2) 3).reading_value ∧
    (generate_mock_data ("GSR") (1 / 2) 3).reading_value ≤ 5 :=
  (claim_c8_mock_ranges ("GSR") (1 / 2) 3 (by decide) (by norm_num) (by norm_num)).2.2.2.2 rfl

/-- Claim C9: every ledger-status response has the constant contract name and
Operational status, a block number in the range 1000000 to 1500000 and a
consent count in the range 5000 to 10000, both inclusive. -/
theorem claim_c9_ledger_bounds (r1 r2 : ℕ) :
    (get_ledger_status r1 r2).contract_name = "NeuroGuardConsentLedger" ∧
    (get_ledger_status r1 r2).status = "Operational" ∧
    1000000 ≤ (get_ledger_status r1 r2).last_block_number ∧
    (get_ledger_status r1 r2).last_block_number ≤ 1500000 ∧
    5000 ≤ (get_ledger_status r1 r2).total_consents_recorded ∧
    (get_ledger_status r1 r2).total_consents_recorded ≤ 10000 := by
  have h1 := pyRandint_mem 1000000 1500000 r1 (by norm_num)
  have h2 := pyRandint_mem 5000 10000 r2 (by norm_num)
  exact ⟨rfl, rfl, h1.1, h1.2, h2.1, h2.2⟩

/-- Claim C10: a Reading returned through the serial-parse path carries the
pydantic timestamp default ml, evaluated once at module load — so two such
Readings from requests at different instants have equal timestamps. -/
theorem claim_c10_serial_timestamp_fixed (ml : ℕ)
    (st1 st2 : SerialState) (dev1 dev2 : DeviceRead) (sc1 sc2 : String) (r1 r2 : ℚ)
    (now1 now2 : ℕ) (raw1 raw2 : String) (d1 d2 : BioSignalData)
    (_hnow : now1 ≠ now2)
    (hr1 : (read_serial_data st1 dev1).1 = some raw1)
    (hp1 : parse_serial_line raw1 ml = some d1)
    (hr2 : (read_serial_data st2 dev2).1 = some raw2)
    (hp2 : parse_serial_line raw2 ml = some d2) :
    (get_live_biosignals st1 dev1 sc1 r1 now1 ml).1.timestamp = ml ∧
    (get_live_biosignals st1 dev1 sc1 r1 now1 ml).1.timestamp =
      (get_live_biosignals st2 dev2 sc2 r2 now2 ml).1.timestamp := by
  have e1 := get_live_serial_parse_ok st1 dev1 sc1 r1 now1 ml raw1 d1 hr1 hp1
  have e2 := get_live_serial_parse_ok st2 dev2 sc2 r2 now2 ml raw2 d2 hr2 hp2
  have t1 := (parse_serial_line_props raw1 ml d1 hp1).2.2
  have t2 := (parse_serial_line_props raw2 ml d2 hp2).2.2
  rw [e1, e2, t1, t2]
  exact ⟨rfl, rfl⟩

/-- Witness for claim C10: two serial-parse-path requests at instants 1 and 2
both carry the module-load timestamp 5. -/
theorem claim_c10_witness :
    (get_live_biosignals ⟨true, true⟩ (DeviceRead.line ("EEG,75.5,alice")) ("GSR") 0 1 5).1.timestamp = 5 ∧
    (get_live_biosignals ⟨true, true⟩ (DeviceRead.line ("EEG,75.5,alice")) ("GSR") 0 1 5).1.timestamp =
      (get_live_biosignals ⟨true, true⟩ (DeviceRead.line ("ECG,80")) ("EEG") 0 2 5).1.timestamp :=
  claim_c10_serial_timestamp_fixed 5 ⟨true, true⟩ ⟨true, true⟩
    (DeviceRead.line ("EEG,75.5,alice")) (DeviceRead.line ("ECG,80")) ("GSR") ("EEG") 0 0 1 2
    ("EEG,75.5,alice") ("ECG,80")
    ⟨"EEG", floatLitVal ⟨false, 755, 1, false, 0⟩, 5, "alice"⟩
    ⟨"ECG", floatLitVal ⟨false, 80, 0, false, 0⟩, 5, "NG-Serial-Device"⟩
    (by decide) (by decide) rfl (by decide) rfl
